import Mathlib

/-!
Verification of the Emacs dynamic-module bridge layer (emacs-module-rs).

Shallow embedding of the code in src/src/error.rs, src/src/func.rs,
src/src/macros.rs and src/emacs-macros/src/module.rs. Foreign value
handles (emacs_value) are modelled as opaque Nat tokens; pointer identity
is equality of tokens. Calls into the foreign runtime are recorded in an
explicit trace, and the panic! paths of the Rust code are modelled by
explicit fatal outcomes (or by Option.none where the function otherwise
returns a Result).
-/

namespace Emr

/-- Opaque foreign value handle (emacs_value). Pointer identity is
modelled as equality of the underlying token. -/
abbrev EV := Nat

/-- Funcall exit status emacs_funcall_exit_return (= 0), error.rs line 15. -/
def RETURN : Nat := 0

/-- Funcall exit status emacs_funcall_exit_signal (= 1), error.rs line 16. -/
def SIGNAL : Nat := 1

/-- Funcall exit status emacs_funcall_exit_throw (= 2), error.rs line 17. -/
def THROW : Nat := 2

/-- The completion state reported by the non_local_exit_get primitive:
the status code together with the two out-parameters (symbol/tag and
data/value) it writes. -/
structure ExitStatus where
  status : Nat
  symbol : EV
  data : EV
  deriving DecidableEq

/-- The bridge error model. Signal, Throw and WrongTypeUserPtr are the
variants of ErrorKind in error.rs (lines 32-76); CoreFnMissing is the
missing-capability kind constructed by raw_fn! (macros.rs lines 2-8,
func.rs lines 9-15); Other stands for any other error carried by the open
failure::Error type that the crate re-exports (error.rs line 2), such as
the std CString NulError raised inside make_function (func.rs line 54). -/
inductive Error
  | Signal (symbol data : EV)
  | Throw (tag value : EV)
  | WrongTypeUserPtr (expected : String)
  | CoreFnMissing (name : String)
  | Other (msg : String)
  deriving DecidableEq

/-- Condition symbol for user-ptr type mismatches (error.rs line 24). -/
def WRONG_TYPE_USER_PTR : String := "rust-wrong-type-user-ptr"

/-- Condition symbol for ordinary Rust errors (error.rs line 25). -/
def ERROR : String := "rust-error"

/-- Condition symbol for Rust panics (error.rs line 26). -/
def PANIC : String := "rust-panic"

/-- Env::handle_exit (error.rs lines 110-134): after a call into the
foreign runtime, inspect the queried exit status. RETURN keeps the prior
call result as Ok; SIGNAL and THROW clear the pending exit and build the
corresponding error from the two out-values; any other status hits the
panic! arm, modelled as none. The Nat in the result counts the
invocations of non_local_exit_clear (error.rs lines 206-208). -/
def handle_exit {α : Type} (result : α) (e : ExitStatus) :
    Option (Except Error α × Nat) :=
  if e.status = RETURN then some (Except.ok result, 0)
  else if e.status = SIGNAL then
    some (Except.error (Error.Signal e.symbol e.data), 1)
  else if e.status = THROW then
    some (Except.error (Error.Throw e.symbol e.data), 1)
  else none

/-- A foreign-runtime primitive invocation, recorded in a trace. -/
inductive FCall
  | make_string (s : String)
  | list (args : List EV)
  | intern (name : String)
  | non_local_exit_signal (symbol data : EV)
  | non_local_exit_throw (tag value : EV)
  | make_function (min_arity max_arity : Int) (doc : String)
  | funcall (f : EV) (args : List EV)
  deriving DecidableEq

/-- Modelled from the spec: the capabilities of a live runtime handle that
are used by the embedded operations but whose implementations are not
under src. intern abstracts Env::intern, make_string abstracts the
IntoLisp conversion of a message string, list abstracts Env::list, and
funcall abstracts the function-application step of Env::call; each is a
fallible foreign call, per spec sections 4.1 and 4.5. make_function_slot
is the optional make_function entry of the dispatch table itself (none
models an absent slot, which raw_fn! reports as a missing capability);
the slot returns the created value and the completion state that
non_local_exit_get reports afterwards. -/
structure Env where
  intern : String → Except Error EV
  make_string : String → Except Error EV
  list : List EV → Except Error EV
  funcall : EV → List EV → Except Error EV
  make_function_slot : Option (Int → Int → String → EV × ExitStatus)

/-- The Display rendering of an error (the format! calls in error.rs):
the fail display attributes of ErrorKind for Signal, Throw and
WrongTypeUserPtr, and the carried message for other errors. CoreFnMissing
has no Display under src; its exact text is immaterial here. -/
def render : Error → String
  | Error.Signal s d =>
      "Non-local signal: symbol=" ++ toString s ++ " data=" ++ toString d
  | Error.Throw t v =>
      "Non-local throw: tag=" ++ toString t ++ " value=" ++ toString v
  | Error.WrongTypeUserPtr e => "expected: " ++ e
  | Error.CoreFnMissing n => "Core function missing: " ++ n
  | Error.Other m => m

/-- Env::signal_str (error.rs lines 179-184): convert the message to a
Lisp string, wrap it in a one-element list, intern the condition symbol,
then invoke the non_local_exit_signal primitive; Env::signal returns the
symbol handle (error.rs lines 223-226). The trace records the foreign
calls made, in order. -/
def signal_str (env : Env) (symbol message : String) :
    List FCall × Except Error EV :=
  match env.make_string message with
  | Except.error e => ([FCall.make_string message], Except.error e)
  | Except.ok m =>
    match env.list [m] with
    | Except.error e =>
        ([FCall.make_string message, FCall.list [m]], Except.error e)
    | Except.ok d =>
      match env.intern symbol with
      | Except.error e =>
          ([FCall.make_string message, FCall.list [m], FCall.intern symbol],
           Except.error e)
      | Except.ok s =>
          ([FCall.make_string message, FCall.list [m], FCall.intern symbol,
            FCall.non_local_exit_signal s d],
           Except.ok s)

/-- What an exported extern function hands back to the foreign runtime: a
raw value, or process termination through panic! (fatal). -/
inductive Outcome
  | normal (v : EV)
  | fatal (msg : String)
  deriving DecidableEq

/-- Env::maybe_exit (error.rs lines 138-154): Ok returns the raw handle
with no foreign call; Signal and Throw re-invoke the corresponding
non-local-exit primitive with the captured raw handles (Env::signal
returns the symbol, Env::throw the tag, error.rs lines 214-226);
WrongTypeUserPtr signals WRONG_TYPE_USER_PTR and every other error
signals ERROR through signal_str, with a panic! (fatal) when signal_str
itself fails. -/
def maybe_exit (env : Env) (result : Except Error EV) : List FCall × Outcome :=
  match result with
  | Except.ok v => ([], Outcome.normal v)
  | Except.error e =>
    match e with
    | Error.Signal s d => ([FCall.non_local_exit_signal s d], Outcome.normal s)
    | Error.Throw t v => ([FCall.non_local_exit_throw t v], Outcome.normal t)
    | Error.WrongTypeUserPtr x =>
      match signal_str env WRONG_TYPE_USER_PTR (render (Error.WrongTypeUserPtr x)) with
      | (tr, Except.ok v) => (tr, Outcome.normal v)
      | (tr, Except.error _) =>
          (tr, Outcome.fatal ("Failed to signal " ++ render (Error.WrongTypeUserPtr x)))
    | Error.CoreFnMissing n =>
      match signal_str env ERROR (render (Error.CoreFnMissing n)) with
      | (tr, Except.ok v) => (tr, Outcome.normal v)
      | (tr, Except.error _) =>
          (tr, Outcome.fatal ("Failed to signal " ++ render (Error.CoreFnMissing n)))
    | Error.Other m =>
      match signal_str env ERROR (render (Error.Other m)) with
      | (tr, Except.ok v) => (tr, Outcome.normal v)
      | (tr, Except.error _) =>
          (tr, Outcome.fatal ("Failed to signal " ++ render (Error.Other m)))

/-- Env::handle_panic (error.rs lines 157-166): a normal result is
returned unchanged; a caught unwind payload (its debug rendering is
modelled as the payload string itself) is signalled under the PANIC
symbol through signal_str, with a panic! (fatal) when that signalling
itself fails. -/
def handle_panic (env : Env) (result : Except String EV) : List FCall × Outcome :=
  match result with
  | Except.ok v => ([], Outcome.normal v)
  | Except.error p =>
    match signal_str env PANIC p with
    | (tr, Except.ok v) => (tr, Outcome.normal v)
    | (tr, Except.error _) => (tr, Outcome.fatal ("Fail to signal panic " ++ p))

/-- The extern trampoline generated by emacs_subrs! (macros.rs lines
75-91): it marshals the arguments, invokes the wrapped function directly
with no unwind catching, and passes the Result to maybe_exit. The body is
modelled as either a panic payload (Except.error: the call unwinds) or
the Result it returns; an unwinding body therefore propagates out of the
trampoline unchanged, across the extern boundary. -/
def emacs_subrs_trampoline (env : Env) (body : Except String (Except Error EV)) :
    Except String (List FCall × Outcome) :=
  match body with
  | Except.error p => Except.error p
  | Except.ok r => Except.ok (maybe_exit env r)

/-- CString::new as used by make_function (func.rs line 54): fails with
the std NulError when the given string contains an interior NUL byte; its
Display message names the position of the first NUL. -/
def cstring_new (s : String) : Except Error String :=
  match s.toList.findIdx? (fun c => c = Char.ofNat 0) with
  | some i =>
      Except.error (Error.Other
        ("nul byte found in provided data at position: " ++ toString i))
  | none => Except.ok s

/-- HandleFunc::make_function (func.rs lines 50-56): raw_call! first
resolves the make_function slot of the dispatch table (failing with
CoreFnMissing named after the slot when absent, func.rs lines 9-15), then
evaluates the call arguments — including CString::new(doc)? — and only
then invokes the primitive, feeding the completion status through
handle_exit. The function pointer and the opaque data pointer carry no
behaviour and are omitted from the model; none models the panic! on an
unexpected status inside handle_exit. -/
def make_function (env : Env) (min_arity max_arity : Int) (doc : String) :
    List FCall × Option (Except Error EV) :=
  match env.make_function_slot with
  | none => ([], some (Except.error (Error.CoreFnMissing ("make_function"))))
  | some f =>
    match cstring_new doc with
    | Except.error e => ([], some (Except.error e))
    | Except.ok cdoc =>
      let (v, ex) := f min_arity max_arity cdoc
      match handle_exit v ex with
      | none => ([FCall.make_function min_arity max_arity cdoc], none)
      | some (r, _) => ([FCall.make_function min_arity max_arity cdoc], some r)

/-- Modelled from the spec: Env::call and Env::intern are not under src.
HandleFunc::fset (func.rs lines 58-62) evaluates self.intern(name)? and
then self.call of the fset function: per spec section 4.6 the binding
step interns the target name and invokes the symbol-function-assignment
call, here modelled as interning the fset symbol and applying the funcall
capability to it. -/
def fset (env : Env) (name : String) (func : EV) : List FCall × Except Error EV :=
  match env.intern name with
  | Except.error e => ([FCall.intern name], Except.error e)
  | Except.ok sym =>
    match env.intern ("fset") with
    | Except.error e => ([FCall.intern name, FCall.intern ("fset")], Except.error e)
    | Except.ok fs =>
      match env.funcall fs [sym, func] with
      | Except.error e =>
          ([FCall.intern name, FCall.intern ("fset"), FCall.funcall fs [sym, func]],
           Except.error e)
      | Except.ok v =>
          ([FCall.intern name, FCall.intern ("fset"), FCall.funcall fs [sym, func]],
           Except.ok v)

/-- HandleFunc::register (func.rs lines 64-68): make_function first, then
fset on its result; the question-mark operator on make_function
short-circuits before fset is attempted. -/
def register (env : Env) (name : String) (min_arity max_arity : Int) (doc : String) :
    List FCall × Option (Except Error EV) :=
  match make_function env min_arity max_arity doc with
  | (tr, none) => (tr, none)
  | (tr, some (Except.error e)) => (tr, some (Except.error e))
  | (tr, some (Except.ok fv)) =>
    let (tr2, r) := fset env name fv
    (tr ++ tr2, some r)

/-- emacs_module_init (macros.rs lines 53-59): the loader entry point
returns 0 when the wrapped initializer returned Ok and 1 on Err;
init_result stands for the initializer's result on the Env built from
the emacs_runtime handle. -/
def emacs_module_init (init_result : Except Error EV) : Int :=
  match init_result with
  | Except.ok _ => 0
  | Except.error _ => 1

/-- emacs_rs_module_init (macros.rs lines 64-70): the live-reload entry
point, with the same contract, on the Env built from the lighter
emacs_env handle. -/
def emacs_rs_module_init (init_result : Except Error EV) : Int :=
  match init_result with
  | Except.ok _ => 0
  | Except.error _ => 1

/-- The process-wide globals touched by the initializer that
Module::gen_init generates (emacs-macros/src/module.rs lines 108-162):
each mutex is modelled by whether it is currently held, together with the
data it guards (the prefix slot holding feature and separator) and the
mod-in-name atomic flag. -/
structure Globals where
  prefix_locked : Bool
  prefix_slot : List String
  mod_in_name : Bool
  init_fns_locked : Bool
  deriving DecidableEq

/-- Result of running the generated initializer: a normal Ok or Err
result with the final globals, or a fatal expect-style abort. -/
inductive InitOutcome
  | ok (g : Globals) (v : EV)
  | err (g : Globals) (e : Error)
  | fatal (msg : String)
  deriving DecidableEq

/-- The export_lisp_funcs loop (emacs-macros/src/module.rs lines
142-150): run the registered initializers in order, stopping at the
first error (func(env)?). Each initializer is modelled by its result. -/
def run_funcs : List (Except Error EV) → Except Error Unit
  | [] => Except.ok ()
  | Except.error e :: _ => Except.error e
  | Except.ok _ :: rest => run_funcs rest

/-- The initializer generated by Module::gen_init (emacs-macros/src/
module.rs lines 108-162): set_prefix try_locks the prefix mutex and
aborts through expect when it is already held, then writes feature and
separator into the slot; configure_mod_in_name stores the flag;
export_lisp_funcs try_locks the registry mutex, aborting through expect
when it is held, and runs each registered initializer; then the user hook
runs and the feature is provided. The initializers, the hook and provide
are modelled by their results. -/
def gen_init_run (feature separator : String) (crate_mod_in_name : Bool)
    (funcs : List (Except Error EV)) (hook_result provide_result : Except Error EV)
    (g : Globals) : InitOutcome :=
  if g.prefix_locked then
    InitOutcome.fatal ("Failed to acquire write lock on module prefix")
  else
    let g1 : Globals :=
      { g with prefix_slot := [feature, separator], mod_in_name := crate_mod_in_name }
    if g1.init_fns_locked then
      InitOutcome.fatal ("Failed to acquire a read lock on map of initializers")
    else
      match run_funcs funcs with
      | Except.error e => InitOutcome.err g1 e
      | Except.ok _ =>
        match hook_result with
        | Except.error e => InitOutcome.err g1 e
        | Except.ok _ =>
          match provide_result with
          | Except.error e => InitOutcome.err g1 e
          | Except.ok v => InitOutcome.ok g1 v

/-- The four variant shapes that the specification claims exhaust the
error union: Signal, Throw, missing capability (CoreFnMissing) and type
mismatch (WrongTypeUserPtr). -/
def claimedVariantForm (e : Error) : Prop :=
  (∃ s d, e = Error.Signal s d) ∨ (∃ t v, e = Error.Throw t v) ∨
  (∃ n, e = Error.CoreFnMissing n) ∨ (∃ x, e = Error.WrongTypeUserPtr x)

/-- The foreign value handles structurally carried by each error variant. -/
def handlesOf : Error → List EV
  | Error.Signal s d => [s, d]
  | Error.Throw t v => [t, v]
  | Error.WrongTypeUserPtr _ => []
  | Error.CoreFnMissing _ => []
  | Error.Other _ => []

/-- A concrete well-behaved environment, used to instantiate theorems. -/
def envC : Env :=
  { intern := fun _ => Except.ok 10
    make_string := fun _ => Except.ok 11
    list := fun _ => Except.ok 12
    funcall := fun _ _ => Except.ok 14
    make_function_slot := some (fun _ _ _ => (13, ⟨RETURN, 0, 0⟩)) }

/-- An environment whose dispatch table lacks the make_function slot. -/
def envNoMk : Env :=
  { envC with make_function_slot := none }

/-- An environment whose intern capability always fails, so that
signal_str fails. -/
def envBad : Env :=
  { envC with intern := fun _ => Except.error (Error.Other ("intern failed")) }

/-- C1: for every completion status fed to Env::handle_exit, RETURN
yields Ok with the prior call result unchanged, SIGNAL yields an
Error.Signal built from the two out-values, THROW an Error.Throw built
from the two out-values, any other status is fatal (the panic! arm,
modelled as none), and non_local_exit_clear is invoked exactly once iff
the status is non-RETURN. -/
theorem handle_exit_spec {α : Type} (r : α) (e : ExitStatus) :
    (e.status = RETURN → handle_exit r e = some (Except.ok r, 0)) ∧
    (e.status = SIGNAL →
      handle_exit r e = some (Except.error (Error.Signal e.symbol e.data), 1)) ∧
    (e.status = THROW →
      handle_exit r e = some (Except.error (Error.Throw e.symbol e.data), 1)) ∧
    (e.status ≠ RETURN → e.status ≠ SIGNAL → e.status ≠ THROW →
      handle_exit r e = none) ∧
    (∀ res n, handle_exit r e = some (res, n) → (n = 1 ↔ e.status ≠ RETURN)) := by
  refine ⟨?_, ?_, ?_, ?_, ?_⟩
  · intro h; simp [handle_exit, h, RETURN, SIGNAL, THROW]
  · intro h; simp [handle_exit, h, RETURN, SIGNAL, THROW]
  · intro h; simp [handle_exit, h, RETURN, SIGNAL, THROW]
  · intro h0 h1 h2; simp [handle_exit, h0, h1, h2]
  · intro res n h
    by_cases h0 : e.status = RETURN
    · simp [handle_exit, h0, RETURN, SIGNAL, THROW] at h
      simp [h0, ← h.2]
    · by_cases h1 : e.status = SIGNAL
      · simp [handle_exit, h1, RETURN, SIGNAL, THROW] at h
        simp [h0, ← h.2]
      · by_cases h2 : e.status = THROW
        · simp [handle_exit, h2, RETURN, SIGNAL, THROW] at h
          simp [h0, ← h.2]
        · simp [handle_exit, h0, h1, h2] at h

/-- Witness for C1, at a concrete SIGNAL status with out-values 7 and 8. -/
theorem handle_exit_spec_witness :
    handle_exit (5 : Nat) ⟨SIGNAL, 7, 8⟩ =
      some (Except.error (Error.Signal 7 8), 1) :=
  (handle_exit_spec (5 : Nat) ⟨SIGNAL, 7, 8⟩).2.1 rfl

/-- C3: Env::maybe_exit on an Error.Signal re-invokes the foreign signal
primitive with exactly the two captured raw handles — the trace holds
that single call and nothing else — returning the symbol handle, and
symmetrically an Error.Throw re-invokes the throw primitive with the
captured tag and value, with no re-encoding of any handle. -/
theorem maybe_exit_reraises_exactly (env : Env) (s d t v : EV) :
    maybe_exit env (Except.error (Error.Signal s d)) =
      ([FCall.non_local_exit_signal s d], Outcome.normal s) ∧
    maybe_exit env (Except.error (Error.Throw t v)) =
      ([FCall.non_local_exit_throw t v], Outcome.normal t) :=
  ⟨rfl, rfl⟩

/-- C7: Env::maybe_exit on a successful result returns the raw handle
unchanged to the foreign runtime, and the call trace is empty — no
signal, throw, intern or any other dispatch-table entry is invoked on
this path. -/
theorem maybe_exit_ok_identity (env : Env) (v : EV) :
    maybe_exit env (Except.ok v) = ([], Outcome.normal v) := rfl

/-- C8: both exported module-init entry points return integer status 0
exactly when the wrapped initializer returns Ok and 1 exactly when it
returns Err, they agree with each other on every result, and no value
other than 0 or 1 is ever returned — no structured error reaches the
loader. -/
theorem module_init_status (r : Except Error EV) :
    (emacs_module_init r = 0 ↔ ∃ v, r = Except.ok v) ∧
    (emacs_module_init r = 1 ↔ ∃ e, r = Except.error e) ∧
    emacs_rs_module_init r = emacs_module_init r ∧
    (emacs_module_init r = 0 ∨ emacs_module_init r = 1) := by
  cases r <;> simp [emacs_module_init, emacs_rs_module_init]

/-- C2 counterexample: a function exported through emacs_subrs! whose
body unwinds. The trampoline that the macro generates performs no unwind
catching, so the panic payload propagates out across the extern boundary
instead of becoming a rust-panic signal: the result is the escaped
unwind, not a normal foreign return. -/
theorem emacs_subrs_panic_escapes :
    emacs_subrs_trampoline envC (Except.error ("boom")) = Except.error ("boom") ∧
    ¬ ∃ p, emacs_subrs_trampoline envC (Except.error ("boom")) = Except.ok p := by
  refine ⟨rfl, ?_⟩
  rintro ⟨p, h⟩
  simp [emacs_subrs_trampoline] at h

/-- C2 (amended): Env::handle_panic — the conversion step of the Panic
Trampoline — given a caught unwind payload, and a runtime whose
signalling machinery works, always produces a foreign signal whose
condition symbol is the interned dedicated panic symbol PANIC
(rust-panic), and that symbol is distinct from the ordinary error symbol
ERROR (rust-error); the unwind payload is not re-raised. -/
theorem handle_panic_signals_rust_panic (env : Env) (p : String) (m d s : EV)
    (hm : env.make_string p = Except.ok m) (hl : env.list [m] = Except.ok d)
    (hi : env.intern PANIC = Except.ok s) :
    handle_panic env (Except.error p) =
      ([FCall.make_string p, FCall.list [m], FCall.intern PANIC,
        FCall.non_local_exit_signal s d], Outcome.normal s) ∧
    PANIC ≠ ERROR := by
  refine ⟨?_, by decide⟩
  simp [handle_panic, signal_str, hm, hl, hi]

/-- Witness for the amended C2, at the concrete environment envC and
panic payload "boom". -/
theorem handle_panic_signals_rust_panic_witness :
    handle_panic envC (Except.error ("boom")) =
      ([FCall.make_string ("boom"), FCall.list [11], FCall.intern PANIC,
        FCall.non_local_exit_signal 10 12], Outcome.normal 10) ∧
    PANIC ≠ ERROR :=
  handle_panic_signals_rust_panic envC ("boom") 11 12 10 rfl rfl rfl

/-- C4: for every error that is neither Signal nor Throw, the exit path
renders the error to a string and signals a fixed bridge-owned condition
symbol carrying that string as payload: WRONG_TYPE_USER_PTR for type
mismatches, ERROR for missing capabilities and all other errors (both
through maybe_exit), PANIC for panics (through handle_panic); the three
symbols are pairwise distinct; and when the signalling call itself fails
the outcome is fatal, never a silent fallback. -/
theorem maybe_exit_generic_errors (env : Env) :
    (∀ x m d s, env.make_string (render (Error.WrongTypeUserPtr x)) = Except.ok m →
      env.list [m] = Except.ok d → env.intern WRONG_TYPE_USER_PTR = Except.ok s →
      maybe_exit env (Except.error (Error.WrongTypeUserPtr x)) =
        ([FCall.make_string (render (Error.WrongTypeUserPtr x)), FCall.list [m],
          FCall.intern WRONG_TYPE_USER_PTR, FCall.non_local_exit_signal s d],
         Outcome.normal s)) ∧
    (∀ n m d s, env.make_string (render (Error.CoreFnMissing n)) = Except.ok m →
      env.list [m] = Except.ok d → env.intern ERROR = Except.ok s →
      maybe_exit env (Except.error (Error.CoreFnMissing n)) =
        ([FCall.make_string (render (Error.CoreFnMissing n)), FCall.list [m],
          FCall.intern ERROR, FCall.non_local_exit_signal s d],
         Outcome.normal s)) ∧
    (∀ msg m d s, env.make_string (render (Error.Other msg)) = Except.ok m →
      env.list [m] = Except.ok d → env.intern ERROR = Except.ok s →
      maybe_exit env (Except.error (Error.Other msg)) =
        ([FCall.make_string (render (Error.Other msg)), FCall.list [m],
          FCall.intern ERROR, FCall.non_local_exit_signal s d],
         Outcome.normal s)) ∧
    (∀ p m d s, env.make_string p = Except.ok m →
      env.list [m] = Except.ok d → env.intern PANIC = Except.ok s →
      handle_panic env (Except.error p) =
        ([FCall.make_string p, FCall.list [m], FCall.intern PANIC,
          FCall.non_local_exit_signal s d],
         Outcome.normal s)) ∧
    (∀ x tr er,
      signal_str env WRONG_TYPE_USER_PTR (render (Error.WrongTypeUserPtr x)) =
        (tr, Except.error er) →
      maybe_exit env (Except.error (Error.WrongTypeUserPtr x)) =
        (tr, Outcome.fatal ("Failed to signal " ++ render (Error.WrongTypeUserPtr x)))) ∧
    (∀ msg tr er,
      signal_str env ERROR (render (Error.Other msg)) = (tr, Except.error er) →
      maybe_exit env (Except.error (Error.Other msg)) =
        (tr, Outcome.fatal ("Failed to signal " ++ render (Error.Other msg)))) ∧
    (∀ p tr er, signal_str env PANIC p = (tr, Except.error er) →
      handle_panic env (Except.error p) =
        (tr, Outcome.fatal ("Fail to signal panic " ++ p))) ∧
    (WRONG_TYPE_USER_PTR ≠ ERROR ∧ ERROR ≠ PANIC ∧ WRONG_TYPE_USER_PTR ≠ PANIC) := by
  refine ⟨?_, ?_, ?_, ?_, ?_, ?_, ?_, by decide⟩
  · intro x m d s hm hl hi
    simp [maybe_exit, signal_str, hm, hl, hi]
  · intro n m d s hm hl hi
    simp [maybe_exit, signal_str, hm, hl, hi]
  · intro msg m d s hm hl hi
    simp [maybe_exit, signal_str, hm, hl, hi]
  · intro p m d s hm hl hi
    simp [handle_panic, signal_str, hm, hl, hi]
  · intro x tr er h
    simp [maybe_exit, h]
  · intro msg tr er h
    simp [maybe_exit, h]
  · intro p tr er h
    simp [handle_panic, h]

/-- Witness for C4: the success path at envC for an Other error, and the
fatal path at envBad (whose intern always fails) for a type mismatch. -/
theorem maybe_exit_generic_errors_witness :
    maybe_exit envC (Except.error (Error.Other ("went wrong"))) =
      ([FCall.make_string ("went wrong"), FCall.list [11],
        FCall.intern ERROR, FCall.non_local_exit_signal 10 12],
       Outcome.normal 10) ∧
    maybe_exit envBad (Except.error (Error.WrongTypeUserPtr ("RefCell"))) =
      ([FCall.make_string (render (Error.WrongTypeUserPtr ("RefCell"))),
        FCall.list [11], FCall.intern WRONG_TYPE_USER_PTR],
       Outcome.fatal ("Failed to signal " ++ render (Error.WrongTypeUserPtr ("RefCell")))) :=
  ⟨(maybe_exit_generic_errors envC).2.2.1 ("went wrong") 11 12 10 rfl rfl rfl,
   (maybe_exit_generic_errors envBad).2.2.2.2.1 ("RefCell")
     [FCall.make_string (render (Error.WrongTypeUserPtr ("RefCell"))),
      FCall.list [11], FCall.intern WRONG_TYPE_USER_PTR]
     (Error.Other ("intern failed")) rfl⟩

/-- C5: when the dispatch table lacks the make_function slot,
HandleFunc::register fails with the missing-capability error naming
make_function, and no foreign call at all is made — in particular the
fset binding (intern and funcall) is never attempted. -/
theorem register_missing_make_function (env : Env) (name : String)
    (min_arity max_arity : Int) (doc : String)
    (h : env.make_function_slot = none) :
    register env name min_arity max_arity doc =
      ([], some (Except.error (Error.CoreFnMissing ("make_function")))) := by
  simp [register, make_function, h]

/-- Witness for C5, at the concrete table envNoMk with the slot absent. -/
theorem register_missing_make_function_witness :
    register envNoMk ("greet") 0 2 ("Greets.") =
      ([], some (Except.error (Error.CoreFnMissing ("make_function")))) :=
  register_missing_make_function envNoMk ("greet") 0 2 ("Greets.") rfl

/-- C6 counterexample: make_function on a documentation string with an
interior NUL byte produces the std CString NulError — an error value the
bridge propagates that has none of the four claimed variant shapes, so
the propagated error union is not closed over exactly those four
variants. -/
theorem error_union_not_closed :
    (make_function envC 0 0 ("a\x00b")).2 =
      some (Except.error (Error.Other
        ("nul byte found in provided data at position: 1"))) ∧
    ¬ claimedVariantForm
        (Error.Other ("nul byte found in provided data at position: 1")) := by
  refine ⟨rfl, ?_⟩
  rintro (⟨s, d, h⟩ | ⟨t, v, h⟩ | ⟨n, h⟩ | ⟨x, h⟩) <;> cases h

/-- C6 (amended): every bridge error is of one of the four known variant
shapes — Signal, Throw, CoreFnMissing (missing capability) and
WrongTypeUserPtr (type mismatch) — or is some other propagated error;
Signal and Throw carry exactly the two captured foreign handles, and the
remaining variants carry no foreign handles, so they are constructible
without a live runtime. -/
theorem error_union_shape :
    (∀ e : Error, claimedVariantForm e ∨ ∃ m, e = Error.Other m) ∧
    (∀ s d, handlesOf (Error.Signal s d) = [s, d]) ∧
    (∀ t v, handlesOf (Error.Throw t v) = [t, v]) ∧
    (∀ n, handlesOf (Error.CoreFnMissing n) = []) ∧
    (∀ x, handlesOf (Error.WrongTypeUserPtr x) = []) ∧
    (∀ m, handlesOf (Error.Other m) = []) := by
  refine ⟨?_, fun _ _ => rfl, fun _ _ => rfl, fun _ => rfl, fun _ => rfl, fun _ => rfl⟩
  intro e
  cases e with
  | Signal s d => exact Or.inl (Or.inl ⟨s, d, rfl⟩)
  | Throw t v => exact Or.inl (Or.inr (Or.inl ⟨t, v, rfl⟩))
  | WrongTypeUserPtr x => exact Or.inl (Or.inr (Or.inr (Or.inr ⟨x, rfl⟩)))
  | CoreFnMissing n => exact Or.inl (Or.inr (Or.inr (Or.inl ⟨n, rfl⟩)))
  | Other m => exact Or.inr ⟨m, rfl⟩

/-- C9: the initializer generated by Module::gen_init acquires each
process-wide lock non-blockingly (try_lock, a total step in this model)
and aborts fatally with the corresponding expect message when the lock is
already held: a held prefix lock aborts before anything else, a held
registry lock aborts right after the prefix write; when both locks are
free the run never aborts, and every non-fatal outcome carries the
written prefix slot [feature, separator] and the stored mod-in-name
flag. -/
theorem gen_init_lock_discipline (feature separator : String) (b : Bool)
    (funcs : List (Except Error EV)) (hr pr : Except Error EV) (g : Globals) :
    (g.prefix_locked = true →
      gen_init_run feature separator b funcs hr pr g =
        InitOutcome.fatal ("Failed to acquire write lock on module prefix")) ∧
    (g.prefix_locked = false → g.init_fns_locked = true →
      gen_init_run feature separator b funcs hr pr g =
        InitOutcome.fatal ("Failed to acquire a read lock on map of initializers")) ∧
    (g.prefix_locked = false → g.init_fns_locked = false →
      ∀ msg, gen_init_run feature separator b funcs hr pr g ≠ InitOutcome.fatal msg) ∧
    (∀ g1 v, gen_init_run feature separator b funcs hr pr g = InitOutcome.ok g1 v →
      g1.prefix_slot = [feature, separator] ∧ g1.mod_in_name = b) ∧
    (∀ g1 e, gen_init_run feature separator b funcs hr pr g = InitOutcome.err g1 e →
      g1.prefix_slot = [feature, separator] ∧ g1.mod_in_name = b) := by
  refine ⟨?_, ?_, ?_, ?_, ?_⟩
  · intro h; simp [gen_init_run, h]
  · intro h0 h1; simp [gen_init_run, h0, h1]
  · intro h0 h1 msg
    simp only [gen_init_run, h0, h1, Bool.false_eq_true, if_false]
    cases run_funcs funcs <;> cases hr <;> cases pr <;> simp
  · intro g1 v h
    rcases g with ⟨pl, ps, mn, fl⟩
    cases pl <;> cases fl <;> simp [gen_init_run] at h
    cases hrf : run_funcs funcs <;> simp [hrf] at h
    cases hhr : hr <;> simp [hhr] at h
    cases hpr : pr <;> simp [hpr] at h
    simp [← h.1]
  · intro g1 e h
    rcases g with ⟨pl, ps, mn, fl⟩
    cases pl <;> cases fl <;> simp [gen_init_run] at h
    cases hrf : run_funcs funcs <;> simp [hrf] at h
    · simp [← h.1]
    · cases hhr : hr <;> simp [hhr] at h
      · simp [← h.1]
      · cases hpr : pr <;> simp [hpr] at h
        simp [← h.1]

/-- Witness for C9, at concrete globals with the prefix lock held. -/
theorem gen_init_lock_discipline_witness :
    gen_init_run ("mylib") ("-") false [] (Except.ok 1) (Except.ok 2)
        ⟨true, [], false, false⟩ =
      InitOutcome.fatal ("Failed to acquire write lock on module prefix") :=
  (gen_init_lock_discipline ("mylib") ("-") false [] (Except.ok 1) (Except.ok 2)
    ⟨true, [], false, false⟩).1 rfl

/-- C10: when the make_function slot is present but the documentation
string contains an interior NUL byte, make_function — and register with
it — returns the NulError as an ordinary error (no panic: the result is
some, not none), and the foreign function-creation primitive is never
invoked (the call trace is empty), so fset is not attempted either. -/
theorem make_function_nul_doc (env : Env) (name : String)
    (min_arity max_arity : Int) (doc : String)
    (f : Int → Int → String → EV × ExitStatus) (i : Nat)
    (hslot : env.make_function_slot = some f)
    (hnul : doc.toList.findIdx? (fun c => c = Char.ofNat 0) = some i) :
    make_function env min_arity max_arity doc =
      ([], some (Except.error (Error.Other
        ("nul byte found in provided data at position: " ++ toString i)))) ∧
    register env name min_arity max_arity doc =
      ([], some (Except.error (Error.Other
        ("nul byte found in provided data at position: " ++ toString i)))) := by
  have hnul2 : List.findIdx? (fun c => c = Char.ofNat 0) doc.data = some i := hnul
  have h1 : make_function env min_arity max_arity doc =
      ([], some (Except.error (Error.Other
        ("nul byte found in provided data at position: " ++ toString i)))) := by
    simp [make_function, hslot, cstring_new, hnul2]
  exact ⟨h1, by simp [register, h1]⟩

/-- Witness for C10, at envC with a doc string holding a NUL at index 1. -/
theorem make_function_nul_doc_witness :
    make_function envC 0 2 ("a\x00b") =
      ([], some (Except.error (Error.Other
        ("nul byte found in provided data at position: 1")))) ∧
    register envC ("greet") 0 2 ("a\x00b") =
      ([], some (Except.error (Error.Other
        ("nul byte found in provided data at position: 1")))) :=
  make_function_nul_doc envC ("greet") 0 2 ("a\x00b")
    (fun _ _ _ => (13, ⟨RETURN, 0, 0⟩)) 1 rfl (by decide)

end Emr
